import Mathlib

/-!
Verification of the Amadeus agent core: the orchestration loop in
src-tauri/src/lib.rs (run_agent_loop, mirrored by src/main.rs), the
conversation store in src-tauri/src/agent/memory.rs (MemoryManager), and
the tool registry in src-tauri/src/agent/tools.rs (ToolDispatcher).
The Rust code is shallowly embedded: messages, events and the persisted
store are explicit lists, the inference engine is a function from the
current history to a response, and the unbounded inner chat loop is
given explicit fuel, with a distinguished result constructor recording
that the source loop would still be running when the fuel runs out.
-/

namespace Amadeus

/-- Model of serde_json::Value (serde_json is an external dependency of
the repository). Numbers are modelled as integers; no claim depends on
numeric payloads. An obj holds the entries of the parsed map; serde maps
have unique keys after parsing. -/
inductive Json where
  | null
  | bool (b : Bool)
  | num (n : Int)
  | str (s : String)
  | arr (elems : List Json)
  | obj (fields : List (String × Json))

/-- Model of serde_json::Value::get(key): on an object, look the key up
in the map; on every other variant the source returns None. -/
def Json.get : Json → String → Option Json
  | .obj fields, key => fields.lookup key
  | _, _ => none

/-- Model of serde_json::Value::as_str: Some only on the string variant. -/
def Json.asStr : Json → Option String
  | .str s => some s
  | _ => none

/-- Message from src-tauri/src/llm/ollama.rs and src/llm/local.rs:
role, content, optional images. Every message built by run_agent_loop
has images = none. -/
structure Message where
  role : String
  content : String
  images : Option (List String) := none
deriving DecidableEq, Repr

/-- Chat event emitted to the frontend transport: the ChatEvent payload
of emit_chat in src-tauri/src/lib.rs (role and content strings). Status
events travel on a separate channel and carry no message content, so
they are not modelled. -/
structure ChatEvent where
  role : String
  content : String
deriving DecidableEq, Repr

/-- Database row reconstruction: MemoryManager persists only role and
content (INSERT INTO messages (role, content) VALUES (?, ?)), and
get_recent_history rebuilds each Message with images = None. -/
def rowOf (m : Message) : Message :=
  { role := m.role, content := m.content, images := none }

/-- MemoryManager::save_message: appends one row holding the role and
the content of the message to the ordered store. The autoincrement id
and the timestamp are modelled by list position. -/
def save_message (store : List Message) (m : Message) : List Message :=
  store ++ [rowOf m]

/-- MemoryManager::get_recent_history: SELECT role, content FROM
messages ORDER BY id DESC LIMIT ?, each row turned into a Message with
images = None, then the vector is reversed to chronological order. -/
def get_recent_history (store : List Message) (limit : Nat) : List Message :=
  ((store.reverse.take limit).map rowOf).reverse

/-- MemoryManager::clear_history: DELETE FROM messages. Defined by the
source but never called by run_agent_loop. -/
def clear_history (_store : List Message) : List Message := []

/-- Result type of Tool::execute from src-tauri/src/agent/tools.rs:
anyhow Result of String, modelled as success text or error detail. -/
def Capability := Json → Except String String

/-- Tool trait object from src-tauri/src/agent/tools.rs: name,
description, parameter schema, and the execute capability. The concrete
capabilities (screenshot, input, file system, browser) perform OS side
effects and are out of scope; claims quantify over the capability or use
a stub whose output the claim does not depend on. -/
structure Tool where
  name : String
  description : String
  parameters : Json
  execute : Capability

/-- ToolDispatcher from src-tauri/src/agent/tools.rs: a HashMap from
tool name to the boxed Tool, modelled as an association list in which
the most recent insertion for a key shadows and replaces older ones,
matching HashMap::insert. -/
structure ToolDispatcher where
  tools : List (String × Tool)

/-- ToolDispatcher::new: empty map. -/
def ToolDispatcher.new : ToolDispatcher := ⟨[]⟩

/-- ToolDispatcher::register: self.tools.insert(tool.name().to_string(),
tool). HashMap::insert replaces any existing entry under the same key
and reports nothing; the embedding keeps the new binding in front and
drops the shadowed one. -/
def ToolDispatcher.register (d : ToolDispatcher) (t : Tool) : ToolDispatcher :=
  ⟨(t.name, t) :: d.tools.filter (fun p => p.1 != t.name)⟩

/-- Dispatch error, tagging which code path of
ToolDispatcher::execute produced the failure: NotFound is the anyhow
error built by the dispatcher itself when the name is not in the map,
ExecutionFailed wraps an error returned by the tool body. The source
uses untyped anyhow errors; render recovers the displayed text. -/
inductive DispatchError where
  | NotFound (name : String)
  | ExecutionFailed (detail : String)
deriving DecidableEq, Repr

/-- Displayed text of a dispatch error: the dispatcher formats
"Tool not found: " followed by the name; a tool failure displays its own
detail. -/
def DispatchError.render : DispatchError → String
  | .NotFound name => "Tool not found: " ++ name
  | .ExecutionFailed d => d

/-- ToolDispatcher::execute: look the name up; if present, delegate to
the tool and pass its success text through, wrapping a tool failure as
ExecutionFailed; otherwise fail with the NotFound error. -/
def ToolDispatcher.execute (d : ToolDispatcher) (name : String) (args : Json) :
    Except DispatchError String :=
  match d.tools.lookup name with
  | some t =>
      match t.execute args with
      | .ok s => .ok s
      | .error e => .error (.ExecutionFailed e)
  | none => .error (.NotFound name)

/-- Raw model response: the text returned by
LocalLlmClient::chat_streaming together with the result of the source
line serde_json::from_str(&full_response).ok(). serde_json is an
external dependency; a response is therefore carried with its parse
result, and parsed = none models a failed parse. -/
structure RawResponse where
  text : String
  parsed : Option Json

/-- Inference engine contract: the orchestrator hands the full current
history to the model and receives one complete response. -/
def Model := List Message → RawResponse

/-- Tool call detection from run_agent_loop: the response parses as JSON
and tool_json.get(tool).and_then(as_str) and tool_json.get(args) are
both present. Extra fields are not inspected and args may be any JSON
value; on success the pair of tool name and args is produced. -/
def toolCallCheck (parsed : Option Json) : Option (String × Json) :=
  match parsed with
  | some v =>
      match v.get "tool" >>= Json.asStr, v.get "args" with
      | some name, some args => some (name, args)
      | _, _ => none
  | none => none

/-- Single apostrophe character, used by the status strings the source
builds around tool names. -/
def sq : String := String.singleton (Char.ofNat 39)

/-- Tool addendum appended to the persona prompt in run_agent_loop,
with the rendering of get_tools_schema passed in as text (that rendering
is serde_json serialization, external to the orchestrator logic). -/
def toolsPrompt (toolsSchema : String) : String :=
  "\nYou have access to the following tools: " ++ toolsSchema ++
  "\n\nTo use a tool, respond with a JSON object in this format ONLY:\n\x7b \"tool\": \"tool_name\", \"args\": \x7b ... \x7d \x7d\nIf you use a tool, do not write anything else."

/-- The full_system_prompt of run_agent_loop: persona system prompt
followed by the tool addendum. Persona::amadeus supplies the persona
text; both parts are kept as parameters of the development. -/
def fullSystemPrompt (personaPrompt toolsSchema : String) : String :=
  personaPrompt ++ toolsPrompt toolsSchema

/-- Orchestrator state visible to the claims: the persisted store owned
by MemoryManager, the in-memory chat_history vector, and the ordered log
of chat-message events emitted to the transport. -/
structure AgentState where
  store : List Message
  history : List Message
  events : List ChatEvent
deriving DecidableEq, Repr

/-- The append pair used throughout run_agent_loop:
memory.save_message(&msg) followed by chat_history.push(msg). -/
def appendMsg (s : AgentState) (m : Message) : AgentState :=
  { s with store := save_message s.store m, history := s.history ++ [m] }

/-- The emit_chat helper of run_agent_loop: appends one chat-message
event to the transport log. -/
def emitChat (s : AgentState) (role content : String) : AgentState :=
  { s with events := s.events ++ [⟨role, content⟩] }

/-- Reset notice emitted on the clear sentinel. -/
def resetNotice : String := "대화 기록이 초기화되었습니다."

/-- Canned reply of the degraded loop entered when LocalLlmClient::new
fails. -/
def unavailableMsg : String := "LLM is not loaded. Please check model path."

/-- Greeting emitted once after initialization. -/
def greetingMsg : String := "System online. Waiting for input..."

/-- Result of the inner chat loop of one turn. The source loop is
unbounded; fuel is an artifact of the total embedding, and outOfFuel s
records that after consuming all fuel the source loop would still be
running with state s. -/
inductive TurnResult where
  | finished (s : AgentState)
  | outOfFuel (s : AgentState)
deriving DecidableEq, Repr

/-- State carried by a turn result. -/
def TurnResult.state : TurnResult → AgentState
  | .finished s => s
  | .outOfFuel s => s

/-- Whether the fuel ran out before the loop broke. -/
def TurnResult.isOutOfFuel : TurnResult → Bool
  | .finished _ => false
  | .outOfFuel _ => true

/-- The inner chat loop of run_agent_loop (the Rust loop block): call
the model on the full history, persist and push the assistant message,
emit it, then check for a tool call. Without a tool call the loop
breaks. With one, it emits the running status, dispatches, persists and
pushes the observation (Tool Output prefix) or error observation (Tool
Error prefix) as a user-role message, and loops back to inference. -/
def chatLoop (disp : ToolDispatcher) (model : Model) :
    Nat → AgentState → TurnResult
  | 0, s => .outOfFuel s
  | fuel + 1, s =>
    let resp := model s.history
    let s1 := emitChat (appendMsg s ⟨"assistant", resp.text, none⟩) "assistant" resp.text
    match toolCallCheck resp.parsed with
    | none => .finished s1
    | some (name, args) =>
      let s2 := emitChat s1 "system" ("Tool " ++ sq ++ name ++ sq ++ " を実行中...")
      match disp.execute name args with
      | .ok result =>
          let s3 := emitChat s2 "system" ("✅ Tool " ++ sq ++ name ++ sq ++ " 완료")
          chatLoop disp model fuel
            (appendMsg s3 ⟨"user", "Tool Output: " ++ result, none⟩)
      | .error e =>
          let s3 := emitChat s2 "system"
            ("❌ Tool " ++ sq ++ name ++ sq ++ " 오류: " ++ e.render)
          chatLoop disp model fuel
            (appendMsg s3 ⟨"user", "Tool Error: " ++ e.render, none⟩)

/-- Model of the Rust str::trim call on the received input (an external
standard-library function): strip leading and trailing whitespace. -/
def rustTrim (s : String) : String :=
  ⟨((s.data.dropWhile Char.isWhitespace).reverse.dropWhile Char.isWhitespace).reverse⟩

/-- Outcome of run_agent_loop on one received input: ignored when empty
after trimming, reset on the clear sentinel, otherwise a full turn. -/
inductive InputResult where
  | ignored (s : AgentState)
  | reset (s : AgentState)
  | turn (r : TurnResult)
deriving DecidableEq, Repr

/-- State carried by an input outcome. -/
def InputResult.state : InputResult → AgentState
  | .ignored s => s
  | .reset s => s
  | .turn r => r.state

/-- One iteration of the outer while loop of run_agent_loop: trim the
input; skip it when empty; on the __CLEAR__ sentinel clear only the
in-memory history, push a fresh system message, and emit the reset
notice (the store is not touched; clear_history exists but is not
called); otherwise persist and push the user message and run the inner
chat loop. -/
def handleInput (disp : ToolDispatcher) (model : Model) (fuel : Nat)
    (sysPrompt : String) (s : AgentState) (input : String) : InputResult :=
  let t := rustTrim input
  if t = "" then .ignored s
  else if t = "__CLEAR__" then
    let s1 := { s with history := [⟨"system", sysPrompt, none⟩] }
    .reset (emitChat s1 "assistant" resetNotice)
  else
    .turn (chatLoop disp model fuel (appendMsg s ⟨"user", t, none⟩))

/-- State after one received input. -/
def processInput (disp : ToolDispatcher) (model : Model) (fuel : Nat)
    (sysPrompt : String) (s : AgentState) (input : String) : AgentState :=
  (handleInput disp model fuel sysPrompt s input).state

/-- Startup of run_agent_loop: load the last 50 messages from the
store; if the loaded history is empty, persist and push the fresh
system message; then emit the greeting. -/
def initAgentState (persisted : List Message) (sysPrompt : String) : AgentState :=
  let history := get_recent_history persisted 50
  if history.isEmpty then
    let sysMsg : Message := ⟨"system", sysPrompt, none⟩
    { store := save_message persisted sysMsg, history := [sysMsg],
      events := [⟨"assistant", greetingMsg⟩] }
  else
    { store := persisted, history := history,
      events := [⟨"assistant", greetingMsg⟩] }

/-- One iteration of the degraded loop entered when LocalLlmClient::new
fails: the received input is discarded unread and the canned
unavailable-service message is emitted; neither the store, nor the
history, nor the dispatcher is touched. -/
def degradedStep (s : AgentState) (_input : String) : AgentState :=
  emitChat s "assistant" unavailableMsg

/-- The degraded loop over a whole sequence of received inputs. -/
def degradedRun (s : AgentState) (inputs : List String) : AgentState :=
  inputs.foldl degradedStep s

/-- Stub tool under the registered name take_screenshot: the real
ScreenshotTool body performs OS screen capture, which is out of scope;
no claim below depends on the stub output. -/
def screenshotStub : Tool :=
  ⟨"take_screenshot", "stub body, output unused by the claims", Json.obj [], fun _ => .ok "ok"⟩

/-- Dispatcher holding the stub registration of take_screenshot. -/
def dEx : ToolDispatcher := ToolDispatcher.new.register screenshotStub

/-- Raw text of a well-formed tool call naming take_screenshot. -/
def toolCallText : String := "\x7b \"tool\": \"take_screenshot\", \"args\": \x7b\x7d \x7d"

/-- Parse result of toolCallText under serde_json: an object with the
two fields tool and args. -/
def toolCallJson : Json :=
  Json.obj [("tool", Json.str "take_screenshot"), ("args", Json.obj [])]

/-- Pathological model that answers every inference call with the same
well-formed tool call. -/
def toolCallModel : Model := fun _ => ⟨toolCallText, some toolCallJson⟩

/-- Model answering every inference call with plain chat text; the text
hi does not parse as JSON, so the parse result is none. -/
def chatModelEx : Model := fun _ => ⟨"hi", none⟩

/-- Concrete run, startup with an empty store and system prompt P. -/
def cexS0 : AgentState := initAgentState [] "P"

/-- Concrete run, after the input hello answered by chat text. -/
def cexS1 : AgentState := processInput ToolDispatcher.new chatModelEx 1 "P" cexS0 "hello"

/-- Concrete run, after the reset sentinel. -/
def cexS2 : AgentState := processInput ToolDispatcher.new chatModelEx 1 "P" cexS1 "__CLEAR__"

/-- Concrete run, one more appended turn after the reset. -/
def cexS3 : AgentState := processInput ToolDispatcher.new chatModelEx 1 "P" cexS2 "again"

/-- C8: get_recent_history store limit is exactly the suffix of the
last limit persisted rows, reconstructed with images = None, in
chronological oldest-first order, although the query fetches them in
descending id order. -/
theorem get_recent_history_spec (store : List Message) (limit : Nat) :
    get_recent_history store limit = (store.drop (store.length - limit)).map rowOf := by
  unfold get_recent_history
  rw [List.take_reverse, List.map_reverse, List.reverse_reverse]

/-- C9: ToolDispatcher.execute fails with the dispatcher-made NotFound
error exactly when the name is unregistered; on a registered name it
delegates to the tool, passing the success text through and wrapping the
tool failure detail as ExecutionFailed. -/
theorem execute_notfound_iff_unregistered (d : ToolDispatcher) (name : String) (args : Json) :
    (d.execute name args = .error (.NotFound name) ↔ d.tools.lookup name = none)
    ∧ (∀ t, d.tools.lookup name = some t →
        d.execute name args =
          match t.execute args with
          | .ok s => .ok s
          | .error e => .error (.ExecutionFailed e)) := by
  constructor
  · unfold ToolDispatcher.execute
    cases h : d.tools.lookup name with
    | none => simp [h]
    | some t => cases ht : t.execute args <;> simp [h, ht]
  · intro t ht
    unfold ToolDispatcher.execute
    rw [ht]

/-- Witness for C9 at the stub dispatcher: take_screenshot is
registered, so execution delegates to the stub and returns its text. -/
theorem execute_notfound_iff_unregistered_witness :
    dEx.execute "take_screenshot" Json.null = .ok "ok" :=
  (execute_notfound_iff_unregistered dEx "take_screenshot" Json.null).2 screenshotStub rfl

/-- Second stub tool under the same name with a distinguishable
output. -/
def screenshotStub2 : Tool :=
  ⟨"take_screenshot", "second stub under the same name", Json.obj [], fun _ => .ok "second"⟩

/-- Counterexample to C6: registering a second capability under an
already registered name does not fail and does not leave the registry
unchanged; the later registration silently replaces the earlier one, so
execution afterwards returns the second result, not the first. -/
theorem duplicate_register_overwrites_cex :
    (dEx.register screenshotStub2).execute "take_screenshot" Json.null = .ok "second"
    ∧ dEx.execute "take_screenshot" Json.null = .ok "ok"
    ∧ (Except.ok "second" : Except DispatchError String) ≠ .ok "ok"
    ∧ (dEx.register screenshotStub2).tools.length = 1 := by
  refine ⟨rfl, rfl, fun h => ?_, rfl⟩
  injection h with h2
  exact absurd h2 (by decide)

/-- C6 amended: register never reports an error (its result type has no
failure case); inserting a tool makes it the registration its name looks
up to, replacing any earlier tool of that name, and names stay unique in
the map. -/
theorem register_replaces_existing (d : ToolDispatcher) (t : Tool) :
    (d.register t).tools.lookup t.name = some t
    ∧ ((d.register t).tools.filter (fun p => p.1 == t.name)).length = 1 := by
  constructor
  · simp [ToolDispatcher.register, List.lookup]
  · simp [ToolDispatcher.register, List.filter_filter, bne]

/-- Object carrying the two required fields plus one extra top-level
field; serde_json parses the text below to exactly this value. -/
def extraFieldsJson : Json :=
  Json.obj [("tool", Json.str "take_screenshot"), ("args", Json.obj []),
            ("note", Json.str "extra")]

/-- Raw text of the tool call with an extra top-level field. -/
def extraFieldsText : String :=
  "\x7b\"tool\":\"take_screenshot\",\"args\":\x7b\x7d,\"note\":\"extra\"\x7d"

/-- Model answering with the extra-fields object. -/
def extraFieldsModel : Model := fun _ => ⟨extraFieldsText, some extraFieldsJson⟩

/-- Counterexample to C5: an object with an extra top-level field next
to tool and args is still classified as a tool call, and the inner loop
takes the tool branch on it instead of finishing the turn as chat. -/
theorem extra_fields_still_toolcall_cex :
    toolCallCheck (some extraFieldsJson) = some ("take_screenshot", Json.obj [])
    ∧ (chatLoop dEx extraFieldsModel 1 ⟨[], [], []⟩).isOutOfFuel = true := by
  exact ⟨rfl, rfl⟩

/-- C5 amended: classification is not a strict two-field match; a
response is classified as a tool call exactly when its JSON parse is an
object whose map contains a string-valued tool entry and an args entry
of any JSON kind, extra top-level fields tolerated; every other parse
outcome is chat. -/
theorem toolCallCheck_characterization (p : Option Json) (name : String) (args : Json) :
    toolCallCheck p = some (name, args) ↔
      ∃ fields, p = some (Json.obj fields) ∧
        fields.lookup "tool" = some (Json.str name) ∧
        fields.lookup "args" = some args := by
  cases p with
  | none => simp [toolCallCheck]
  | some v =>
    cases v with
    | obj fields =>
      constructor
      · intro h
        cases h1 : fields.lookup "tool" with
        | none => simp [toolCallCheck, Json.get, h1] at h
        | some jt =>
          cases h2 : fields.lookup "args" with
          | none => cases jt <;> simp [toolCallCheck, Json.get, Json.asStr, h1, h2] at h
          | some ja =>
            cases jt <;> simp [toolCallCheck, Json.get, Json.asStr, h1, h2] at h
            exact ⟨fields, rfl, by rw [h1, h.1], by rw [h2, h.2]⟩
      · rintro ⟨f2, hp, ht, ha⟩
        injection hp with hp2
        injection hp2 with hp3
        subst hp3
        simp [toolCallCheck, Json.get, Json.asStr, ht, ha]
    | null => simp [toolCallCheck, Json.get]
    | bool b => simp [toolCallCheck, Json.get]
    | num n => simp [toolCallCheck, Json.get]
    | str s => simp [toolCallCheck, Json.get]
    | arr xs => simp [toolCallCheck, Json.get]

/-- The inner loop only ever appends: its final store and event log
extend the starting ones. -/
lemma chatLoop_extends (disp : ToolDispatcher) (model : Model) :
    ∀ (fuel : Nat) (s : AgentState), ∃ r1 r2,
      (chatLoop disp model fuel s).state.store = s.store ++ r1 ∧
      (chatLoop disp model fuel s).state.events = s.events ++ r2 := by
  intro fuel
  induction fuel with
  | zero =>
    intro s
    exact ⟨[], [], by simp [chatLoop, TurnResult.state], by simp [chatLoop, TurnResult.state]⟩
  | succ n ih =>
    intro s
    simp only [chatLoop]
    split
    · exact ⟨[⟨"assistant", (model s.history).text, none⟩],
        [⟨"assistant", (model s.history).text⟩],
        by simp [appendMsg, emitChat, save_message, rowOf, TurnResult.state],
        by simp [appendMsg, emitChat, save_message, TurnResult.state]⟩
    · rename_i name args heqc
      split
      · rename_i result heqx
        obtain ⟨r1, r2, e1, e2⟩ := ih
          (appendMsg
            (emitChat
              (emitChat
                (emitChat (appendMsg s ⟨"assistant", (model s.history).text, none⟩)
                  "assistant" (model s.history).text)
                "system" ("Tool " ++ sq ++ name ++ sq ++ " を実行中..."))
              "system" ("✅ Tool " ++ sq ++ name ++ sq ++ " 완료"))
            ⟨"user", "Tool Output: " ++ result, none⟩)
        exact ⟨⟨"assistant", (model s.history).text, none⟩ ::
                 ⟨"user", "Tool Output: " ++ result, none⟩ :: r1,
               ⟨"assistant", (model s.history).text⟩ ::
                 ⟨"system", "Tool " ++ sq ++ name ++ sq ++ " を実行中..."⟩ ::
                 ⟨"system", "✅ Tool " ++ sq ++ name ++ sq ++ " 완료"⟩ :: r2,
               by rw [e1]; simp [appendMsg, emitChat, save_message, rowOf],
               by rw [e2]; simp [appendMsg, emitChat, save_message]⟩
      · rename_i e heqx
        obtain ⟨r1, r2, e1, e2⟩ := ih
          (appendMsg
            (emitChat
              (emitChat
                (emitChat (appendMsg s ⟨"assistant", (model s.history).text, none⟩)
                  "assistant" (model s.history).text)
                "system" ("Tool " ++ sq ++ name ++ sq ++ " を実行中..."))
              "system" ("❌ Tool " ++ sq ++ name ++ sq ++ " 오류: " ++ e.render))
            ⟨"user", "Tool Error: " ++ e.render, none⟩)
        exact ⟨⟨"assistant", (model s.history).text, none⟩ ::
                 ⟨"user", "Tool Error: " ++ e.render, none⟩ :: r1,
               ⟨"assistant", (model s.history).text⟩ ::
                 ⟨"system", "Tool " ++ sq ++ name ++ sq ++ " を実行中..."⟩ ::
                 ⟨"system", "❌ Tool " ++ sq ++ name ++ sq ++ " 오류: " ++ e.render⟩ :: r2,
               by rw [e1]; simp [appendMsg, emitChat, save_message, rowOf],
               by rw [e2]; simp [appendMsg, emitChat, save_message]⟩

/-- Every message the inner loop appends is built with images = none,
so the append pair keeps the in-memory history equal to the store. -/
lemma chatLoop_sync (disp : ToolDispatcher) (model : Model) :
    ∀ (fuel : Nat) (s : AgentState), s.history = s.store →
      (chatLoop disp model fuel s).state.history =
        (chatLoop disp model fuel s).state.store := by
  intro fuel
  induction fuel with
  | zero => intro s h; simpa [chatLoop, TurnResult.state] using h
  | succ n ih =>
    intro s h
    simp only [chatLoop]
    split
    · simp [appendMsg, emitChat, save_message, rowOf, TurnResult.state, h]
    · split
      · exact ih _ (by simp [appendMsg, emitChat, save_message, rowOf, h])
      · exact ih _ (by simp [appendMsg, emitChat, save_message, rowOf, h])

/-- Counterexample to C1: the orchestrator persists and emits the raw
tool-call text as an assistant message even though it parses as a tool
call naming the registered tool take_screenshot; the assistant event
with the raw text and the persisted assistant message both appear. -/
theorem toolcall_raw_emitted_as_assistant_cex :
    (⟨"assistant", toolCallText⟩ : ChatEvent) ∈
      (chatLoop dEx toolCallModel 1 ⟨[], [], []⟩).state.events
    ∧ (⟨"assistant", toolCallText, none⟩ : Message) ∈
      (chatLoop dEx toolCallModel 1 ⟨[], [], []⟩).state.store := by
  exact ⟨by decide, by decide⟩

/-- C1 amended: every raw model response is persisted and emitted
verbatim as an assistant message before classification; when the parse
yields no tool call the turn finishes with exactly that message, and
when it yields a tool call the loop keeps that emission and continues. -/
theorem response_emission_classification (disp : ToolDispatcher) (model : Model)
    (fuel : Nat) (s : AgentState) :
    (∃ rest erest,
      (chatLoop disp model (fuel + 1) s).state.store
        = s.store ++ ⟨"assistant", (model s.history).text, none⟩ :: rest
      ∧ (chatLoop disp model (fuel + 1) s).state.events
        = s.events ++ ⟨"assistant", (model s.history).text⟩ :: erest)
    ∧ (toolCallCheck (model s.history).parsed = none →
        chatLoop disp model (fuel + 1) s =
          .finished (emitChat (appendMsg s ⟨"assistant", (model s.history).text, none⟩)
            "assistant" (model s.history).text)) := by
  constructor
  · simp only [chatLoop]
    split
    · exact ⟨[], [],
        by simp [appendMsg, emitChat, save_message, rowOf, TurnResult.state],
        by simp [appendMsg, emitChat, save_message, TurnResult.state]⟩
    · rename_i name args heqc
      split
      · rename_i result heqx
        obtain ⟨r1, r2, e1, e2⟩ := chatLoop_extends disp model fuel
          (appendMsg
            (emitChat
              (emitChat
                (emitChat (appendMsg s ⟨"assistant", (model s.history).text, none⟩)
                  "assistant" (model s.history).text)
                "system" ("Tool " ++ sq ++ name ++ sq ++ " を実行中..."))
              "system" ("✅ Tool " ++ sq ++ name ++ sq ++ " 완료"))
            ⟨"user", "Tool Output: " ++ result, none⟩)
        exact ⟨⟨"user", "Tool Output: " ++ result, none⟩ :: r1,
               ⟨"system", "Tool " ++ sq ++ name ++ sq ++ " を実行中..."⟩ ::
                 ⟨"system", "✅ Tool " ++ sq ++ name ++ sq ++ " 완료"⟩ :: r2,
               by rw [e1]; simp [appendMsg, emitChat, save_message, rowOf],
               by rw [e2]; simp [appendMsg, emitChat, save_message]⟩
      · rename_i e heqx
        obtain ⟨r1, r2, e1, e2⟩ := chatLoop_extends disp model fuel
          (appendMsg
            (emitChat
              (emitChat
                (emitChat (appendMsg s ⟨"assistant", (model s.history).text, none⟩)
                  "assistant" (model s.history).text)
                "system" ("Tool " ++ sq ++ name ++ sq ++ " を実行中..."))
              "system" ("❌ Tool " ++ sq ++ name ++ sq ++ " 오류: " ++ e.render))
            ⟨"user", "Tool Error: " ++ e.render, none⟩)
        exact ⟨⟨"user", "Tool Error: " ++ e.render, none⟩ :: r1,
               ⟨"system", "Tool " ++ sq ++ name ++ sq ++ " を実行中..."⟩ ::
                 ⟨"system", "❌ Tool " ++ sq ++ name ++ sq ++ " 오류: " ++ e.render⟩ :: r2,
               by rw [e1]; simp [appendMsg, emitChat, save_message, rowOf],
               by rw [e2]; simp [appendMsg, emitChat, save_message]⟩
  · intro hc
    simp only [chatLoop, hc]

/-- Witness for C1 amended at a chat response: the turn finishes with
the raw text hi as the final assistant message. -/
theorem response_emission_classification_witness :
    chatLoop ToolDispatcher.new chatModelEx 1 ⟨[], [], []⟩ =
      .finished (emitChat (appendMsg ⟨[], [], []⟩ ⟨"assistant", "hi", none⟩)
        "assistant" "hi") :=
  (response_emission_classification ToolDispatcher.new chatModelEx 0 ⟨[], [], []⟩).2 rfl

/-- Counterexample to C2: a run that seeds a fresh store, completes one
chat turn, and then receives the reset sentinel ends with a persisted
sequence of three messages, not the single fresh system message the
claim requires; only the in-memory history is re-seeded. -/
theorem reset_store_not_cleared_cex :
    cexS2.store =
      [⟨"system", "P", none⟩, ⟨"user", "hello", none⟩, ⟨"assistant", "hi", none⟩]
    ∧ ¬ cexS2.store.length = 1
    ∧ cexS2.history = [⟨"system", "P", none⟩] := by
  exact ⟨by decide, by decide, by decide⟩

/-- C2 amended: processing the reset sentinel replaces the in-memory
history with the single fresh system message and emits the reset
notice, but performs no store operation at all: the persisted sequence
is left exactly as it was (clear_history is never invoked and the
re-seeded system message is not saved). -/
theorem reset_resets_memory_only (disp : ToolDispatcher) (model : Model) (fuel : Nat)
    (sysPrompt : String) (s : AgentState) :
    handleInput disp model fuel sysPrompt s "__CLEAR__" =
      .reset { store := s.store,
               history := [⟨"system", sysPrompt, none⟩],
               events := s.events ++ [⟨"assistant", resetNotice⟩] } := rfl

/-- Counterexample to C3: at the observation point right after the
reset, and again after the next successful append, the in-memory
history and the persisted sequence differ. -/
theorem history_store_divergence_cex :
    ¬ cexS2.history = cexS2.store ∧ ¬ cexS3.history = cexS3.store := by
  exact ⟨by decide, by decide⟩

/-- C3 amended: the equality of in-memory history and persisted store
holds at a fresh start (empty store) and is preserved by processing any
input other than the reset sentinel, through every append of the turn;
the reset input and startup loading from a store holding more than the
50-message window break it. -/
theorem append_preserves_history_store_sync (sysPrompt : String) :
    (initAgentState [] sysPrompt).history = (initAgentState [] sysPrompt).store
    ∧ ∀ (disp : ToolDispatcher) (model : Model) (fuel : Nat) (s : AgentState)
        (input : String),
        rustTrim input ≠ "__CLEAR__" → s.history = s.store →
        (processInput disp model fuel sysPrompt s input).history =
          (processInput disp model fuel sysPrompt s input).store := by
  constructor
  · rfl
  · intro disp model fuel s input hne h
    simp only [processInput, handleInput]
    by_cases he : rustTrim input = ""
    · simp [he, InputResult.state, h]
    · rw [if_neg he, if_neg hne]
      exact chatLoop_sync disp model fuel _
        (by simp [appendMsg, save_message, rowOf, h])

/-- Witness for C3 amended: a non-reset input processed from the empty
synchronized state keeps history and store equal. -/
theorem append_preserves_history_store_sync_witness :
    (processInput ToolDispatcher.new chatModelEx 0 "P" ⟨[], [], []⟩ "hi").history =
      (processInput ToolDispatcher.new chatModelEx 0 "P" ⟨[], [], []⟩ "hi").store :=
  (append_preserves_history_store_sync "P").2 ToolDispatcher.new chatModelEx 0
    ⟨[], [], []⟩ "hi" (by decide) rfl

/-- C4: the inner loop of run_agent_loop has no iteration cap. Against
the pathological model that answers every inference call with a
well-formed tool call, the loop consumes any amount of fuel without
ever finishing the turn, whatever the dispatcher and starting state:
the source loop runs one inference and one dispatch per iteration,
forever, and no fallback message exists in the code. -/
theorem no_iteration_cap_loops_forever (disp : ToolDispatcher) :
    ∀ (fuel : Nat) (s : AgentState), ∃ s2,
      chatLoop disp toolCallModel fuel s = .outOfFuel s2 := by
  intro fuel
  induction fuel with
  | zero => intro s; exact ⟨s, rfl⟩
  | succ n ih =>
    intro s
    simp only [chatLoop]
    split
    · rename_i heqc
      simp [toolCallModel, toolCallCheck, toolCallJson, Json.get, Json.asStr,
        List.lookup] at heqc
    · rename_i name args heqc
      split
      · exact ih _
      · exact ih _

/-- Counterexample to C7: starting the process against a persisted
store of 51 messages, the loaded history is the last 50 of them, whose
first element is a user message, not the system message the claim
requires. -/
theorem loaded_history_head_not_system_cex :
    (initAgentState
        (⟨"system", "P0", none⟩ :: List.replicate 50 ⟨"user", "x", none⟩) "P").history.head?
      = some ⟨"user", "x", none⟩
    ∧ ¬ (initAgentState
        (⟨"system", "P0", none⟩ :: List.replicate 50 ⟨"user", "x", none⟩) "P").history.head?
      = some ⟨"system", "P", none⟩ := by
  exact ⟨by decide, by decide⟩

/-- C7 amended: after initialization against an empty store, and after
every reset, the conversation starts with exactly the fresh system
message carrying the configured prompt; after startup loading from a
non-empty store the history is whatever the 50-message window returns,
and its first element need not be a system message. -/
theorem init_and_reset_first_message_system (sysPrompt : String) :
    (initAgentState [] sysPrompt).history = [⟨"system", sysPrompt, none⟩]
    ∧ ∀ (disp : ToolDispatcher) (model : Model) (fuel : Nat) (s : AgentState),
        (handleInput disp model fuel sysPrompt s "__CLEAR__").state.history
          = [⟨"system", sysPrompt, none⟩] := by
  exact ⟨rfl, fun disp model fuel s => rfl⟩

/-- C10: once LocalLlmClient::new has failed, the degraded loop answers
every received input, the empty string and the reset sentinel included,
with the same canned unavailable-service assistant event, and performs
no store append, no history mutation, no dispatch and no reset for the
rest of the run. -/
theorem degraded_mode_canned_responses (s : AgentState) (inputs : List String) :
    degradedRun s inputs =
      { store := s.store, history := s.history,
        events := s.events ++ inputs.map (fun _ => ⟨"assistant", unavailableMsg⟩) } := by
  induction inputs generalizing s with
  | nil => cases s; simp [degradedRun]
  | cons i is ih =>
    cases s with
    | mk st hi ev =>
      simp [degradedRun, List.foldl_cons, degradedStep, emitChat] at ih ⊢
      rw [ih]
      simp

end Amadeus
